import Mathlib

/-!
Shallow embedding of the ticket-bot core from src/main_bot.py.

Modelling conventions:
- SQLite rows become Lean structures; the autoincrement surrogate `id` column
  is omitted, so the positional indexes used by the Python code map to named
  fields as follows: row[1] = ticket_id, row[2] = user_id, row[3] = username,
  row[4] = status, row[5] = created_at, row[6] = closed_at,
  row[7] = support_channel_id, row[8] = category.
- `status` is kept as the stored string, "open" or "closed", exactly as the
  SQL statements write and compare it.
- Timestamps (SQL CURRENT_TIMESTAMP, datetime.now) are abstracted as a `Nat`
  passed explicitly to each operation; display formatting (strftime) is
  abstracted as `toString` of that number.
- The chat platform (discord.py) is an external collaborator: guild, category,
  role and channel lookups, channel creation, DM delivery and reactions are
  modelled by an explicit environment `Env`, and every outbound call becomes
  an `Effect` value collected in order.
- Exceptions become explicit branches: `create_text_channel` failing is
  `Env.channelCreation = none` (caught by the surrounding try of
  handle_ticket_creation); `user.send` raising discord.Forbidden is membership
  of the user in `Env.dmBlocked`.
-/

namespace TicketBot

/-- Ticket row of the `tickets` table (main_bot.py lines 99-111). -/
structure Ticket where
  ticket_id : String
  user_id : Nat
  username : String
  status : String
  created_at : Nat
  closed_at : Option Nat
  support_channel_id : Nat
  category : String
deriving Repr, DecidableEq

/-- Row of the `ticket_messages` table (main_bot.py lines 113-124). -/
structure TicketMessage where
  ticket_id : String
  author_id : Nat
  author_name : String
  message_content : String
  timestamp : Nat
deriving Repr, DecidableEq

/-- State of the SQLite database: both tables, in row (insertion) order. -/
structure Database where
  tickets : List Ticket
  ticket_messages : List TicketMessage
deriving Repr, DecidableEq

namespace Database

/-- Database.create_ticket (lines 130-145): INSERT returning False on the
UNIQUE(ticket_id) IntegrityError, True otherwise. `now` stands for the
CURRENT_TIMESTAMP default of created_at; status defaults to "open" and
closed_at to NULL. -/
def create_ticket (db : Database) (tid : String) (uid : Nat) (uname : String)
    (support_channel_id : Nat) (category : String) (now : Nat) :
    Database × Bool :=
  if db.tickets.any (fun t => t.ticket_id == tid) then
    (db, false)
  else
    ({ db with tickets := db.tickets ++
        [{ ticket_id := tid, user_id := uid, username := uname,
           status := "open", created_at := now, closed_at := none,
           support_channel_id := support_channel_id, category := category }] },
     true)

/-- Row-level effect of the UPDATE in Database.close_ticket: a row whose
ticket_id matches gets status closed and closed_at overwritten with now; any
other row is untouched. -/
def closeRow (tid : String) (now : Nat) (t : Ticket) : Ticket :=
  if t.ticket_id == tid then
    { t with status := "closed", closed_at := some now }
  else t

/-- Database.close_ticket (lines 147-158): UPDATE tickets SET status, closed_at
on every row whose ticket_id matches, with no status precondition. -/
def close_ticket (db : Database) (tid : String) (now : Nat) : Database :=
  { db with tickets := db.tickets.map (closeRow tid now) }

/-- Database.get_ticket (lines 160-171): SELECT by ticket_id, fetchone. -/
def get_ticket (db : Database) (tid : String) : Option Ticket :=
  db.tickets.find? (fun t => t.ticket_id == tid)

/-- Database.get_user_open_ticket (lines 173-184): SELECT by user_id and
status = open, fetchone. -/
def get_user_open_ticket (db : Database) (uid : Nat) : Option Ticket :=
  db.tickets.find? (fun t => t.user_id == uid && t.status == "open")

/-- Database.add_message (lines 186-197): INSERT into ticket_messages. -/
def add_message (db : Database) (tid : String) (author_id : Nat)
    (author_name : String) (message_content : String) (now : Nat) : Database :=
  { db with ticket_messages := db.ticket_messages ++
      [{ ticket_id := tid, author_id := author_id, author_name := author_name,
         message_content := message_content, timestamp := now }] }

/-- Inline query of handle_support_message (lines 542-547): SELECT by
support_channel_id and status = open, fetchone. -/
def get_open_ticket_by_channel (db : Database) (channel_id : Nat) :
    Option Ticket :=
  db.tickets.find? (fun t => t.support_channel_id == channel_id &&
    t.status == "open")

end Database

/-- generate_ticket_id (lines 212-214). -/
def generate_ticket_id (user_id : Nat) (now : Nat) : String :=
  "ticket-" ++ toString user_id ++ "-" ++ toString now

/-- Row inserted for a fresh ticket of `uid` created at `now` on staff
channel `chan`: the row Database.create_ticket builds when called from
handle_ticket_creation. -/
def newTicket (uid : Nat) (uname : String) (now : Nat) (chan : Nat) : Ticket :=
  { ticket_id := generate_ticket_id uid now, user_id := uid,
    username := uname, status := "open", created_at := now,
    closed_at := none, support_channel_id := chan, category := "general" }

/-- Python str.lower, modelled characterwise via Char.toLower on the code
points; the claims only concern the ASCII prefix check on "ai:". Python
strings are sequences of code points, so the list-of-characters view is the
faithful one. -/
def pyLower (s : String) : String :=
  String.mk (s.data.map Char.toLower)

/-- Python str.startswith on code points. -/
def pyStartsWith (s pre : String) : Bool :=
  pre.data.isPrefixOf s.data

/-- Python slicing s[n:] on code points. -/
def pyDrop (s : String) (n : Nat) : String :=
  String.mk (s.data.drop n)

/-- Python str.strip: whitespace removed from both ends. -/
def pyStrip (s : String) : String :=
  String.mk
    (((s.data.dropWhile Char.isWhitespace).reverse.dropWhile
      Char.isWhitespace).reverse)

/-- Python str.title on the one-word status strings: first character
uppercased. -/
def pyTitle (s : String) : String :=
  String.mk (match s.data with
    | [] => []
    | c :: cs => c.toUpper :: cs)

/-- Fixed message returned by get_ai_response when OPENAI_API_KEY is absent
(line 219). -/
def notConfiguredMsg : String :=
  "AI assistance is not configured. Please contact a staff member for help."

/-- Fixed fallback returned by get_ai_response when the provider raises
(line 234). -/
def fallbackMsg : String :=
  "I\x27m having trouble accessing AI assistance right now. Please contact a staff member for help."

/-- get_ai_response (lines 216-234). `apiKey` is config.OPENAI_API_KEY; the
provider call openai.ChatCompletion.create is abstracted as a function of the
question returning either the completion text or an exception. On success the
code returns the text stripped. -/
def get_ai_response (apiKey : Option String)
    (provider : String → Except Unit String) (question : String) : String :=
  match apiKey with
  | none => notConfiguredMsg
  | some _ =>
    match provider question with
    | Except.ok r => pyStrip r
    | Except.error _ => fallbackMsg

/-- Rich-content message, reduced to the parts the handlers actually set:
title, description, ordered (name, value) fields, and the optional set_author
name. -/
structure Embed where
  title : String
  description : String
  fields : List (String × String)
  author : Option String
deriving Repr, DecidableEq

/-- Outbound calls to the chat collaborator, in the order the handler makes
them. ephemeralReply is interaction.response.send_message(ephemeral=True);
editMessage is interaction.response.edit_message; reaction is
message.add_reaction on the inbound message; replyEmbed is a send on the
channel the inbound message arrived in. -/
inductive Effect where
  | ephemeralReply (content : String)
  | ephemeralEmbed (e : Embed)
  | channelMsg (channel_id : Nat) (content : String) (e : Embed)
  | channelText (channel_id : Nat) (content : String)
  | replyEmbed (e : Embed)
  | dmEmbed (user_id : Nat) (e : Embed)
  | editMessage (e : Embed)
  | reaction (emoji : String)
deriving Repr, DecidableEq

/-- External state of the chat collaborator as the handlers observe it:
the configured ids, whether the id lookups of handle_ticket_creation resolve,
whether create_text_channel succeeds (and the id of the channel it returns),
which channel and user ids bot.get_channel / bot.get_user resolve, and which
users raise discord.Forbidden on user.send. -/
structure Env where
  SUPPORT_GUILD_ID : Nat
  STAFF_ROLE_ID : Nat
  TICKET_CATEGORY_ID : Nat
  supportGuildExists : Bool
  categoryExists : Bool
  staffRoleExists : Bool
  channelCreation : Option Nat
  channels : List Nat
  users : List Nat
  dmBlocked : List Nat
deriving Repr, DecidableEq

/-- Embed announcing a fresh ticket in the staff channel (lines 312-318). -/
def announceEmbed (tid : String) (uid : Nat) (uname : String) (now : Nat) :
    Embed :=
  { title := "🎫 Ticket: " ++ tid,
    description := "**User:** <@" ++ toString uid ++ "> (" ++ uname ++
      ")\n**Created:** " ++ toString now,
    fields := [("Status", "🟢 Open"),
      ("Instructions",
       "User will send their query via DM. Staff can respond here.")],
    author := none }

/-- Welcome DM sent to the ticket opener (lines 325-339). -/
def welcomeEmbed (tid : String) : Embed :=
  { title := "🎫 Ticket Created Successfully!",
    description := "Your ticket `" ++ tid ++ "` has been created.",
    fields := [("What\x27s Next?",
      "Please describe your issue or question in detail. Our support team will respond as soon as possible."),
      ("Need Quick Help?",
       "Type your question starting with `ai:` for instant AI assistance (e.g., `ai: How do I reset my password?`)")],
    author := none }

/-- TicketView.handle_ticket_creation (lines 245-360). Callers are the create
button and the DM prompt view; `uid`, `uname` are interaction.user, `now` the
creation instant. Returns the database after the handler and the outbound
effects in order. The Bool returned by db.create_ticket is ignored, as in the
source (line 309). -/
def handle_ticket_creation (env : Env) (db : Database) (uid : Nat)
    (uname : String) (now : Nat) : Database × List Effect :=
  match db.get_user_open_ticket uid with
  | some existing_ticket =>
    (db, [Effect.ephemeralReply
      ("You already have an open ticket: " ++ existing_ticket.ticket_id)])
  | none =>
    let tid := generate_ticket_id uid now
    if !env.supportGuildExists then
      (db, [Effect.ephemeralReply
        "❌ Support server not found. Please contact an administrator."])
    else if !env.categoryExists then
      (db, [Effect.ephemeralReply
        "❌ Ticket category not found. Please contact an administrator."])
    else if !env.staffRoleExists then
      (db, [Effect.ephemeralReply
        "❌ Staff role not found. Please contact an administrator."])
    else
      match env.channelCreation with
      | none =>
        (db, [Effect.ephemeralReply
          "❌ An error occurred while creating your ticket. Please contact an administrator."])
      | some chan =>
        let db1 := (db.create_ticket tid uid uname chan "general" now).1
        let announce := Effect.channelMsg chan
          ("<@&" ++ toString env.STAFF_ROLE_ID ++ ">")
          (announceEmbed tid uid uname now)
        if uid ∈ env.dmBlocked then
          (db1, [announce, Effect.ephemeralReply
            ("✅ Ticket created! However, I couldn\x27t send you a DM. Please check your privacy settings.\nTicket ID: `" ++ tid ++ "`")])
        else
          (db1, [announce, Effect.dmEmbed uid (welcomeEmbed tid),
            Effect.ephemeralReply
              ("✅ Ticket created successfully! Check your DMs for details. Ticket ID: `" ++ tid ++ "`")])

/-- Embed the close button edits the announcement into (lines 379-384). -/
def closedEditEmbed (tid : String) (closer_id : Nat) (now : Nat) : Embed :=
  { title := "🎫 Ticket: " ++ tid,
    description := "**Closed by:** <@" ++ toString closer_id ++
      ">\n**Closed at:** " ++ toString now,
    fields := [("Status", "🔴 Closed")],
    author := none }

/-- Closure DM sent by the close button (lines 396-405). -/
def closedDmEmbed (tid : String) : Embed :=
  { title := "🎫 Ticket Closed",
    description := "Your ticket `" ++ tid ++
      "` has been closed by our support team.",
    fields := [("Need More Help?",
      "Feel free to create a new ticket if you need further assistance.")],
    author := none }

/-- TicketCloseView.close_ticket_button (lines 368-409). `view_ticket_id` is
the ticket_id captured by the view instance (the empty string for the
persistent view registered on restart), `roles` the role ids of
interaction.user. Note the handler closes in the database before it re-reads
the ticket, and performs no already-closed check. -/
def close_ticket_button (env : Env) (db : Database) (roles : List Nat)
    (closer_id : Nat) (view_ticket_id : String) (now : Nat) :
    Database × List Effect :=
  if env.STAFF_ROLE_ID ∈ roles then
    let db1 := db.close_ticket view_ticket_id now
    let edit := Effect.editMessage (closedEditEmbed view_ticket_id closer_id now)
    match db1.get_ticket view_ticket_id with
    | some t =>
      if t.user_id ∈ env.users ∧ t.user_id ∉ env.dmBlocked then
        (db1, [edit, Effect.dmEmbed t.user_id (closedDmEmbed view_ticket_id)])
      else
        (db1, [edit])
    | none => (db1, [edit])
  else
    (db, [Effect.ephemeralReply "❌ Only staff members can close tickets."])

/-- close_ticket_command, the /close slash command (lines 602-636). -/
def close_ticket_command (env : Env) (db : Database) (roles : List Nat)
    (closer_id : Nat) (tid : String) (now : Nat) : Database × List Effect :=
  if env.STAFF_ROLE_ID ∈ roles then
    match db.get_ticket tid with
    | none => (db, [Effect.ephemeralReply "❌ Ticket not found."])
    | some t =>
      if t.status == "closed" then
        (db, [Effect.ephemeralReply "❌ Ticket is already closed."])
      else
        let db1 := db.close_ticket tid now
        let ok := Effect.ephemeralReply
          ("✅ Ticket `" ++ tid ++ "` has been closed.")
        if t.user_id ∈ env.users ∧ t.user_id ∉ env.dmBlocked then
          (db1, [Effect.dmEmbed t.user_id
            { title := "🎫 Ticket Closed",
              description := "Your ticket `" ++ tid ++
                "` has been closed by <@" ++ toString closer_id ++ ">.",
              fields := [], author := none }, ok])
        else
          (db1, [ok])
  else
    (db, [Effect.ephemeralReply "❌ Only staff members can close tickets."])

/-- ticket_info, the /ticket_info slash command (lines 638-665). Read-only. -/
def ticket_info (env : Env) (db : Database) (roles : List Nat) (tid : String) :
    Database × List Effect :=
  if env.STAFF_ROLE_ID ∈ roles then
    match db.get_ticket tid with
    | none => (db, [Effect.ephemeralReply "❌ Ticket not found."])
    | some t =>
      let status_emoji := if t.status == "open" then "🟢" else "🔴"
      let userField := (if t.user_id ∈ env.users then
          "<@" ++ toString t.user_id ++ ">" else "Unknown") ++
        " (" ++ t.username ++ ")"
      (db, [Effect.ephemeralEmbed
        { title := "🎫 Ticket Information: " ++ tid,
          description := "",
          fields := [("User", userField),
            ("Status", status_emoji ++ " " ++ pyTitle t.status),
            ("Created", toString t.created_at)] ++
            (match t.closed_at with
             | some c => [("Closed", toString c)]
             | none => []),
          author := none }])
  else
    (db, [Effect.ephemeralReply
      "❌ Only staff members can view ticket information."])

/-- AI answer embed of the DM handler (lines 476-485). -/
def aiEmbed (ai_response : String) : Embed :=
  { title := "🤖 AI Assistant",
    description := ai_response,
    fields := [("Need More Help?",
      "If this doesn\x27t solve your issue, you can create a ticket for human support.")],
    author := none }

/-- Prompt embed of the DM handler when the user has no open ticket and did
not ask the AI (lines 490-504). -/
def promptEmbed : Embed :=
  { title := "💬 Message Received",
    description := "I see you\x27d like some help! You don\x27t currently have an open support ticket.",
    fields := [("Create a Ticket",
      "To get help from our support team, please create a ticket in the main server or use the button below."),
      ("Quick AI Help",
       "For instant assistance, start your message with `ai:` (e.g., `ai: How do I reset my password?`)")],
    author := none }

/-- Embed forwarding a user DM into the staff channel (lines 521-526). -/
def dmForwardEmbed (uname : String) (content : String) : Embed :=
  { title := "💬 Message from " ++ uname,
    description := content,
    fields := [],
    author := none }

/-- handle_dm_message (lines 461-531), with the bot-author guard of
on_message (lines 446-448) folded in as `author_is_bot`. `apiKey` and
`provider` parameterise get_ai_response. -/
def handle_dm_message (env : Env) (db : Database) (author_is_bot : Bool)
    (uid : Nat) (uname : String) (content : String) (apiKey : Option String)
    (provider : String → Except Unit String) (now : Nat) :
    Database × List Effect :=
  if author_is_bot then (db, [])
  else
    match db.get_user_open_ticket uid with
    | none =>
      if pyStartsWith (pyLower content) "ai:" then
        let question := pyStrip (pyDrop content 3)
        let ai_response := get_ai_response apiKey provider question
        (db, [Effect.replyEmbed (aiEmbed ai_response)])
      else
        (db, [Effect.replyEmbed promptEmbed])
    | some ticket =>
      let tid := ticket.ticket_id
      let support_channel_id := ticket.support_channel_id
      if support_channel_id ∈ env.channels then
        let db1 := db.add_message tid uid uname content now
        (db1, [Effect.channelMsg support_channel_id ""
            (dmForwardEmbed uname content),
          Effect.reaction "✅"])
      else
        (db, [])

/-- Embed forwarding a staff message to the ticket owner (lines 560-566);
set_author records the staff author name. -/
def supportForwardEmbed (author_name : String) (content : String) : Embed :=
  { title := "💬 Support Response",
    description := content,
    fields := [],
    author := some author_name }

/-- handle_support_message (lines 533-571), for a message in the support
guild; repeats the bot-author guard of its own line 535. `channel_id` and
`channel_name` describe the channel the message arrived in. -/
def handle_support_message (env : Env) (db : Database) (author_is_bot : Bool)
    (author_id : Nat) (author_name : String) (channel_id : Nat)
    (channel_name : String) (content : String) (now : Nat) :
    Database × List Effect :=
  if author_is_bot then (db, [])
  else if pyStartsWith channel_name "ticket-" then
    match db.get_open_ticket_by_channel channel_id with
    | some ticket =>
      let db1 := db.add_message ticket.ticket_id author_id author_name
        content now
      if ticket.user_id ∈ env.users then
        if ticket.user_id ∈ env.dmBlocked then
          (db1, [Effect.channelText channel_id
            "⚠️ Could not send DM to user (DMs disabled)"])
        else
          (db1, [Effect.dmEmbed ticket.user_id
              (supportForwardEmbed author_name content),
            Effect.reaction "✅"])
      else
        (db1, [])
    | none => (db, [])
  else
    (db, [])

/-- Ticket id the persistent close view is re-registered with on every
restart: on_ready line 434 runs bot.add_view(TicketCloseView("")). -/
def persistent_view_ticket_id : String := ""

/-- One inbound event of the dispatcher, covering every handler that touches
the database. Each carries the data the corresponding handler reads. -/
inductive Action where
  | create (uid : Nat) (uname : String) (now : Nat)
  | closeBtn (roles : List Nat) (closer_id : Nat) (view_ticket_id : String)
      (now : Nat)
  | closeCmd (roles : List Nat) (closer_id : Nat) (tid : String) (now : Nat)
  | info (roles : List Nat) (tid : String)
  | dm (author_is_bot : Bool) (uid : Nat) (uname : String) (content : String)
      (now : Nat)
  | support (author_is_bot : Bool) (author_id : Nat) (author_name : String)
      (channel_id : Nat) (channel_name : String) (content : String) (now : Nat)

/-- Database after dispatching one inbound event (sequential execution). -/
def step (env : Env) (apiKey : Option String)
    (provider : String → Except Unit String) (db : Database) :
    Action → Database
  | Action.create uid uname now =>
    (handle_ticket_creation env db uid uname now).1
  | Action.closeBtn roles closer_id vtid now =>
    (close_ticket_button env db roles closer_id vtid now).1
  | Action.closeCmd roles closer_id tid now =>
    (close_ticket_command env db roles closer_id tid now).1
  | Action.info roles tid =>
    (ticket_info env db roles tid).1
  | Action.dm b uid uname content now =>
    (handle_dm_message env db b uid uname content apiKey provider now).1
  | Action.support b aid aname cid cname content now =>
    (handle_support_message env db b aid aname cid cname content now).1

/-- Database after a finite sequential execution of inbound events. -/
def run (env : Env) (apiKey : Option String)
    (provider : String → Except Unit String) (db : Database) :
    List Action → Database
  | [] => db
  | a :: rest => run env apiKey provider (step env apiKey provider db a) rest

/-- Two distinct rows both open for the same user. -/
def openPair (t1 t2 : Ticket) : Prop :=
  t1.user_id = t2.user_id ∧ t1.status = "open" ∧ t2.status = "open"

/-- Invariant of spec section 3: at most one ticket with status open per
user_id. -/
def oneOpenPerUser (db : Database) : Prop :=
  db.tickets.Pairwise (fun t1 t2 => ¬ openPair t1 t2)

instance (t1 t2 : Ticket) : Decidable (openPair t1 t2) := by
  unfold openPair; infer_instance

instance (db : Database) : Decidable (oneOpenPerUser db) := by
  unfold oneOpenPerUser; exact List.instDecidablePairwise _

/-! Concrete fixtures used by witnesses and counterexamples. -/

/-- Healthy environment: all lookups resolve, channel creation returns
channel 50, user 1 resolves and accepts DMs, staff role id 7. -/
def env0 : Env :=
  { SUPPORT_GUILD_ID := 100, STAFF_ROLE_ID := 7, TICKET_CATEGORY_ID := 9,
    supportGuildExists := true, categoryExists := true,
    staffRoleExists := true, channelCreation := some 50,
    channels := [50], users := [1], dmBlocked := [] }

/-- Environment in which bot.get_channel resolves nothing. -/
def envNoChan : Env := { env0 with channels := [] }

/-- Environment in which bot.get_user resolves nobody. -/
def envNoUser : Env := { env0 with users := [] }

/-- Empty database. -/
def db0 : Database := { tickets := [], ticket_messages := [] }

/-- An open ticket of user 1 on staff channel 50. -/
def openTicket1 : Ticket :=
  { ticket_id := "ticket-1-2", user_id := 1, username := "alice",
    status := "open", created_at := 2, closed_at := none,
    support_channel_id := 50, category := "general" }

/-- Database holding just the open ticket of user 1. -/
def dbOpen : Database := { tickets := [openTicket1], ticket_messages := [] }

/-- The same ticket already closed, closed_at recorded as 5. -/
def closedTicket1 : Ticket :=
  { openTicket1 with status := "closed", closed_at := some 5 }

/-- Database holding just the closed ticket. -/
def dbClosed : Database := { tickets := [closedTicket1], ticket_messages := [] }

/-! Helper lemmas shared across claims. -/

theorem closeRow_ticket_id (tid : String) (now : Nat) (t : Ticket) :
    (Database.closeRow tid now t).ticket_id = t.ticket_id := by
  unfold Database.closeRow
  split <;> rfl

theorem closeRow_user_id (tid : String) (now : Nat) (t : Ticket) :
    (Database.closeRow tid now t).user_id = t.user_id := by
  unfold Database.closeRow
  split <;> rfl

theorem closeRow_eq_of_status_open (tid : String) (now : Nat) (t : Ticket)
    (h : (Database.closeRow tid now t).status = "open") :
    Database.closeRow tid now t = t := by
  by_cases hc : (t.ticket_id == tid) = true
  · exfalso
    unfold Database.closeRow at h
    rw [if_pos hc] at h
    simp at h
  · unfold Database.closeRow
    rw [if_neg hc]

theorem find?_map_closeRow (l : List Ticket) (tid : String) (now : Nat) :
    (l.map (Database.closeRow tid now)).find? (fun t => t.ticket_id == tid) =
      (l.find? (fun t => t.ticket_id == tid)).map
        (fun t => { t with status := "closed", closed_at := some now }) := by
  induction l with
  | nil => rfl
  | cons h t ih =>
    by_cases hc : h.ticket_id == tid
    · simp [List.find?_cons, Database.closeRow, hc]
    · simp [List.find?_cons, Database.closeRow, hc, ih]

theorem get_ticket_close_ticket (db : Database) (tid : String) (now : Nat) :
    (db.close_ticket tid now).get_ticket tid =
      (db.get_ticket tid).map
        (fun t => { t with status := "closed", closed_at := some now }) := by
  show (db.tickets.map (Database.closeRow tid now)).find?
      (fun t => t.ticket_id == tid) = _
  exact find?_map_closeRow db.tickets tid now

theorem map_closeRow_eq_self (l : List Ticket) (tid : String) (now : Nat)
    (h : ∀ t ∈ l, t.ticket_id ≠ tid) :
    l.map (Database.closeRow tid now) = l := by
  induction l with
  | nil => rfl
  | cons a l ih =>
    have ha : a.ticket_id ≠ tid := h a (List.mem_cons_self a l)
    have hl : ∀ t ∈ l, t.ticket_id ≠ tid := fun t ht =>
      h t (List.mem_cons_of_mem a ht)
    simp [Database.closeRow, ha, ih hl]

theorem close_ticket_eq_self (db : Database) (tid : String) (now : Nat)
    (h : ∀ t ∈ db.tickets, t.ticket_id ≠ tid) :
    db.close_ticket tid now = db := by
  unfold Database.close_ticket
  rw [map_closeRow_eq_self db.tickets tid now h]

/-- Claim C7: the AI-assist adapter is total with fixed fallbacks. With no
provider configured it returns the fixed not-configured message; with a
provider configured whose call raises, it returns the fixed fallback message;
in every case the result is one of the not-configured message, the fallback
message, or the provider completion text stripped — no error propagates past
the adapter. -/
theorem get_ai_response_total (apiKey : Option String)
    (provider : String → Except Unit String) (q : String) :
    (apiKey = none → get_ai_response apiKey provider q = notConfiguredMsg) ∧
    (apiKey ≠ none → provider q = Except.error () →
      get_ai_response apiKey provider q = fallbackMsg) ∧
    (get_ai_response apiKey provider q = notConfiguredMsg ∨
      get_ai_response apiKey provider q = fallbackMsg ∨
      ∃ r, provider q = Except.ok r ∧
        get_ai_response apiKey provider q = pyStrip r) := by
  unfold get_ai_response
  cases apiKey with
  | none => simp
  | some k =>
    cases hp : provider q with
    | ok r =>
      refine ⟨by simp, by simp [hp], Or.inr (Or.inr ⟨r, rfl, rfl⟩)⟩
    | error e =>
      cases e
      exact ⟨by simp, fun _ _ => rfl, Or.inr (Or.inl rfl)⟩

/-- Witness for C7 at concrete inputs: unconfigured and provider-error cases. -/
theorem get_ai_response_total_witness :
    get_ai_response none (fun _ => Except.error ()) "q" = notConfiguredMsg ∧
    get_ai_response (some "k") (fun _ => Except.error ()) "q" = fallbackMsg :=
  ⟨(get_ai_response_total none (fun _ => Except.error ()) "q").1 rfl,
   (get_ai_response_total (some "k") (fun _ => Except.error ()) "q").2.1
     (Option.some_ne_none "k") rfl⟩

/-- Claim C8: a DM whose content triggers the AI path, sent by a non-bot user
with no open ticket, leaves the whole database — both the tickets and the
ticket_messages tables — unchanged. -/
theorem ai_path_leaves_store_unchanged (env : Env) (db : Database) (uid : Nat)
    (uname content : String) (apiKey : Option String)
    (provider : String → Except Unit String) (now : Nat)
    (hno : db.get_user_open_ticket uid = none)
    (hai : pyStartsWith (pyLower content) "ai:" = true) :
    (handle_dm_message env db false uid uname content apiKey provider now).1 =
      db := by
  unfold handle_dm_message
  simp [hno, hai]

/-- Witness for C8: concrete AI-triggering DM against the empty store. -/
theorem ai_path_leaves_store_unchanged_witness :
    (handle_dm_message env0 db0 false 1 "alice" "ai: help" none
      (fun _ => Except.error ()) 3).1 = db0 :=
  ai_path_leaves_store_unchanged env0 db0 1 "alice" "ai: help" none
    (fun _ => Except.error ()) 3 rfl (by decide)

/-- Claim C10: for a non-bot DM from a user with no open ticket, the AI path
is taken exactly when the lowercased content starts with the trigger "ai:"
(so mixed-case triggers count), and the question handed to the adapter is the
content with its first three characters dropped and surrounding whitespace
trimmed; otherwise the ticket-creation prompt is sent. Either way the
database is unchanged. -/
theorem dm_ai_dispatch (env : Env) (db : Database) (uid : Nat)
    (uname content : String) (apiKey : Option String)
    (provider : String → Except Unit String) (now : Nat)
    (hno : db.get_user_open_ticket uid = none) :
    handle_dm_message env db false uid uname content apiKey provider now =
      (if pyStartsWith (pyLower content) "ai:" then
        (db, [Effect.replyEmbed (aiEmbed
          (get_ai_response apiKey provider (pyStrip (pyDrop content 3))))])
      else (db, [Effect.replyEmbed promptEmbed])) := by
  unfold handle_dm_message
  simp [hno]

/-- Witness for C10: the mixed-case trigger "AI:" takes the AI path and the
adapter (unconfigured here) answer is relayed. -/
theorem dm_ai_dispatch_witness :
    handle_dm_message env0 db0 false 1 "alice" "AI: reset password" none
      (fun _ => Except.error ()) 3 =
      (db0, [Effect.replyEmbed (aiEmbed notConfiguredMsg)]) := by
  rw [dm_ai_dispatch env0 db0 1 "alice" "AI: reset password" none
    (fun _ => Except.error ()) 3 rfl]
  rfl

/-- Claim C6: every closure action and the ticket-lookup command check the
staff role first: an invoker without the configured staff role gets the
permission error, and the database is returned unchanged — the closing and
info branches are unreachable without the role. -/
theorem staff_only_actions (env : Env) (db : Database) (roles : List Nat)
    (closer_id : Nat) (tid : String) (now : Nat)
    (h : env.STAFF_ROLE_ID ∉ roles) :
    close_ticket_command env db roles closer_id tid now =
      (db, [Effect.ephemeralReply "❌ Only staff members can close tickets."]) ∧
    close_ticket_button env db roles closer_id tid now =
      (db, [Effect.ephemeralReply "❌ Only staff members can close tickets."]) ∧
    ticket_info env db roles tid =
      (db, [Effect.ephemeralReply
        "❌ Only staff members can view ticket information."]) := by
  unfold close_ticket_command close_ticket_button ticket_info
  simp [h]

/-- Witness for C6: a roleless invoker against the open-ticket store. -/
theorem staff_only_actions_witness :
    close_ticket_command env0 dbOpen [] 2 "ticket-1-2" 9 =
      (dbOpen,
       [Effect.ephemeralReply "❌ Only staff members can close tickets."]) ∧
    close_ticket_button env0 dbOpen [] 2 "ticket-1-2" 9 =
      (dbOpen,
       [Effect.ephemeralReply "❌ Only staff members can close tickets."]) ∧
    ticket_info env0 dbOpen [] "ticket-1-2" =
      (dbOpen, [Effect.ephemeralReply
        "❌ Only staff members can view ticket information."]) :=
  staff_only_actions env0 dbOpen [] 2 "ticket-1-2" 9 (by decide)

/-- Claim C3: ticket creation is all-or-nothing around external channel
creation: on any failing lookup (guild, category, staff role) or failing
channel creation the store is returned unchanged, and conversely the tickets
table can only change when all lookups succeeded and channel creation
returned a channel. -/
theorem no_insert_without_channel (env : Env) (db : Database) (uid : Nat)
    (uname : String) (now : Nat) :
    ((env.supportGuildExists = false ∨ env.categoryExists = false ∨
        env.staffRoleExists = false ∨ env.channelCreation = none) →
      (handle_ticket_creation env db uid uname now).1 = db) ∧
    ((handle_ticket_creation env db uid uname now).1.tickets ≠ db.tickets →
      env.supportGuildExists = true ∧ env.categoryExists = true ∧
        env.staffRoleExists = true ∧ ∃ c, env.channelCreation = some c) := by
  unfold handle_ticket_creation
  cases hgu : db.get_user_open_ticket uid with
  | some t => simp
  | none =>
    cases hsg : env.supportGuildExists with
    | false => simp
    | true =>
      cases hcat : env.categoryExists with
      | false => simp
      | true =>
        cases hrole : env.staffRoleExists with
        | false => simp
        | true =>
          cases hcc : env.channelCreation with
          | none => simp
          | some c => simp

/-- Witness for C3: failing channel creation leaves the empty store empty. -/
theorem no_insert_without_channel_witness :
    (handle_ticket_creation { env0 with channelCreation := none } db0 1
      "alice" 2).1 = db0 :=
  (no_insert_without_channel { env0 with channelCreation := none } db0 1
    "alice" 2).1 (Or.inr (Or.inr (Or.inr rfl)))

theorem close_ticket_button_fst (env : Env) (db : Database) (roles : List Nat)
    (closer_id : Nat) (vtid : String) (now : Nat)
    (hstaff : env.STAFF_ROLE_ID ∈ roles) :
    (close_ticket_button env db roles closer_id vtid now).1 =
      db.close_ticket vtid now := by
  unfold close_ticket_button
  rw [if_pos hstaff]
  dsimp only
  split
  · split <;> rfl
  · rfl

/-- Claim C1, counterexample: pressing the close button on an already-closed
ticket is not rejected and does change state — closed_at, previously 5, is
overwritten with the time of the second press, 9. -/
theorem close_button_overwrites_closed_at :
    (close_ticket_button env0 dbClosed [7] 3 "ticket-1-2" 9).1 ≠ dbClosed ∧
    ((close_ticket_button env0 dbClosed [7] 3 "ticket-1-2" 9).1.get_ticket
      "ticket-1-2").map Ticket.closed_at = some (some 9) ∧
    (dbClosed.get_ticket "ticket-1-2").map Ticket.closed_at = some (some 5) := by
  refine ⟨?_, by decide, by decide⟩
  decide

/-- Claim C1, amended: a second close of a CLOSED ticket through the close
command yields the already-closed error and changes nothing; the close button
however performs no already-closed check, so a second press re-runs the
storage update, keeping status CLOSED but overwriting closed_at with the time
of the later press. -/
theorem close_idempotence_amended (env : Env) (db : Database)
    (roles : List Nat) (closer_id : Nat) (tid : String) (now : Nat)
    (t : Ticket) (hstaff : env.STAFF_ROLE_ID ∈ roles)
    (hget : db.get_ticket tid = some t) (hclosed : t.status = "closed") :
    close_ticket_command env db roles closer_id tid now =
      (db, [Effect.ephemeralReply "❌ Ticket is already closed."]) ∧
    (close_ticket_button env db roles closer_id tid now).1.get_ticket tid =
      some { t with status := "closed", closed_at := some now } := by
  constructor
  · unfold close_ticket_command
    rw [if_pos hstaff, hget]
    simp [hclosed]
  · rw [close_ticket_button_fst env db roles closer_id tid now hstaff,
      get_ticket_close_ticket, hget]
    rfl

/-- Witness for the amended C1 at the concrete closed ticket: the command
reports already-closed and leaves the store alone; the button press at time 9
rewrites closed_at to 9. -/
theorem close_idempotence_amended_witness :
    close_ticket_command env0 dbClosed [7] 3 "ticket-1-2" 9 =
      (dbClosed, [Effect.ephemeralReply "❌ Ticket is already closed."]) ∧
    (close_ticket_button env0 dbClosed [7] 3 "ticket-1-2" 9).1.get_ticket
      "ticket-1-2" =
      some { closedTicket1 with status := "closed", closed_at := some 9 } :=
  close_idempotence_amended env0 dbClosed [7] 3 "ticket-1-2" 9 closedTicket1
    (by decide) (by decide) rfl

/-- Claim C4, counterexample: user 1 has an OPEN ticket, but its staff
channel does not resolve through bot.get_channel, and then the handler
appends nothing to the ticket history, forwards nothing and sends no
acknowledgment — the claim promises exactly one appended TicketMessage and a
forward for every DM from a user with an open ticket. -/
theorem dm_routing_unresolved_channel_counterexample :
    handle_dm_message envNoChan dbOpen false 1 "alice" "hello there" none
      (fun _ => Except.error ()) 3 = (dbOpen, []) ∧
    dbOpen.ticket_messages = [] := by
  exact ⟨by decide, rfl⟩

/-- Claim C4, amended: for a non-bot DM from a user with an open ticket,
provided the ticket staff channel resolves through bot.get_channel, exactly
one TicketMessage carrying that ticket id is appended, the content is
forwarded verbatim with the sender identity to the staff channel, and receipt
is acknowledged with a reaction; if the channel does not resolve, nothing at
all happens. -/
theorem dm_routing_amended (env : Env) (db : Database) (uid : Nat)
    (uname content : String) (apiKey : Option String)
    (provider : String → Except Unit String) (now : Nat) (t : Ticket)
    (hopen : db.get_user_open_ticket uid = some t) :
    (t.support_channel_id ∈ env.channels →
      handle_dm_message env db false uid uname content apiKey provider now =
        (db.add_message t.ticket_id uid uname content now,
         [Effect.channelMsg t.support_channel_id ""
            (dmForwardEmbed uname content),
          Effect.reaction "✅"])) ∧
    (t.support_channel_id ∉ env.channels →
      handle_dm_message env db false uid uname content apiKey provider now =
        (db, [])) ∧
    (db.add_message t.ticket_id uid uname content now).ticket_messages =
      db.ticket_messages ++
        [{ ticket_id := t.ticket_id, author_id := uid, author_name := uname,
           message_content := content, timestamp := now }] := by
  refine ⟨fun hchan => ?_, fun hchan => ?_, rfl⟩ <;>
    · unfold handle_dm_message
      rw [hopen]
      simp [hchan]

/-- Witness for the amended C4: DM routed into staff channel 50 appends the
one history record and forwards with identity. -/
theorem dm_routing_amended_witness :
    handle_dm_message env0 dbOpen false 1 "alice" "hello there" none
      (fun _ => Except.error ()) 3 =
      (dbOpen.add_message "ticket-1-2" 1 "alice" "hello there" 3,
       [Effect.channelMsg 50 "" (dmForwardEmbed "alice" "hello there"),
        Effect.reaction "✅"]) :=
  (dm_routing_amended env0 dbOpen 1 "alice" "hello there" none
    (fun _ => Except.error ()) 3 openTicket1 (by decide)).1 (by decide)

/-- Claim C5, counterexample: a staff message in a recognized ticket channel
with a matching OPEN ticket whose owner account does not resolve through
bot.get_user: the history append happens, but there is no forward to the
owner and no delivery-failure notification to the staff channel — silent
failure, where the claim promises a forward and, on failure, a notification. -/
theorem support_routing_unresolved_user_counterexample :
    handle_support_message envNoUser dbOpen false 9 "staff" 50 "ticket-alice"
      "hi" 4 =
      ({ dbOpen with ticket_messages :=
          [{ ticket_id := "ticket-1-2", author_id := 9, author_name := "staff",
             message_content := "hi", timestamp := 4 }] }, []) := by
  decide

/-- Claim C5, amended: for a non-bot message in a ticket-named channel with a
matching OPEN ticket, the history append always happens and is never rolled
back; the forward to the owner (with the staff author identity) and the
acknowledgment happen when the owner account resolves and accepts DMs; if the
DM send raises Forbidden the staff channel is warned of the delivery failure;
if the owner account does not resolve at all, the failure is silent. -/
theorem support_routing_amended (env : Env) (db : Database)
    (author_id : Nat) (author_name : String) (cid : Nat)
    (cname content : String) (now : Nat) (t : Ticket)
    (hname : pyStartsWith cname "ticket-" = true)
    (hticket : db.get_open_ticket_by_channel cid = some t) :
    handle_support_message env db false author_id author_name cid cname
      content now =
      (db.add_message t.ticket_id author_id author_name content now,
       if t.user_id ∈ env.users then
         (if t.user_id ∈ env.dmBlocked then
            [Effect.channelText cid
              "⚠️ Could not send DM to user (DMs disabled)"]
          else
            [Effect.dmEmbed t.user_id
              (supportForwardEmbed author_name content),
             Effect.reaction "✅"])
       else []) := by
  unfold handle_support_message
  rw [hname]
  by_cases hu : t.user_id ∈ env.users <;>
    by_cases hb : t.user_id ∈ env.dmBlocked <;>
      simp [hticket, hu, hb]

/-- Witness for the amended C5: owner resolves and accepts DMs, so the append,
the identity-tagged forward and the acknowledgment all happen. -/
theorem support_routing_amended_witness :
    handle_support_message env0 dbOpen false 9 "staff" 50 "ticket-alice"
      "hi" 4 =
      (dbOpen.add_message "ticket-1-2" 9 "staff" "hi" 4,
       [Effect.dmEmbed 1 (supportForwardEmbed "staff" "hi"),
        Effect.reaction "✅"]) := by
  rw [support_routing_amended env0 dbOpen 9 "staff" 50 "ticket-alice" "hi" 4
    openTicket1 (by decide) (by decide)]
  decide

/-- Claim C9: the persistent close view is re-registered after restart with
the empty-string ticket id; invoking its handler as staff runs the storage
update with that empty id, which matches no row of a store whose ids are all
real (generated ids are never empty), so no status and no closed_at changes —
yet the announcement is still edited to show the ticket closed. -/
theorem persistent_view_close_noop (env : Env) (db : Database)
    (roles : List Nat) (closer_id : Nat) (now : Nat)
    (hstaff : env.STAFF_ROLE_ID ∈ roles)
    (hids : ∀ t ∈ db.tickets, t.ticket_id ≠ persistent_view_ticket_id) :
    close_ticket_button env db roles closer_id persistent_view_ticket_id now =
      (db, [Effect.editMessage
        (closedEditEmbed persistent_view_ticket_id closer_id now)]) ∧
    (∀ u n, generate_ticket_id u n ≠ persistent_view_ticket_id) := by
  constructor
  · have hdb : db.close_ticket persistent_view_ticket_id now = db :=
      close_ticket_eq_self db _ now hids
    have hget : db.get_ticket persistent_view_ticket_id = none := by
      apply List.find?_eq_none.mpr
      intro t ht
      simp [hids t ht]
    unfold close_ticket_button
    rw [if_pos hstaff, hdb]
    dsimp only
    rw [hget]
  · intro u n h
    have hlen := congrArg String.length h
    simp only [generate_ticket_id, String.length_append] at hlen
    have h7 : "ticket-".length = 7 := rfl
    have h0 : (persistent_view_ticket_id : String).length = 0 := rfl
    omega

/-- Witness for C9: the concrete one-ticket store survives a staff press of
the restart-registered close button untouched, while the announcement is
edited to closed. -/
theorem persistent_view_close_noop_witness :
    close_ticket_button env0 dbOpen [7] 3 persistent_view_ticket_id 9 =
      (dbOpen, [Effect.editMessage
        (closedEditEmbed persistent_view_ticket_id 3 9)]) ∧
    generate_ticket_id 1 2 ≠ persistent_view_ticket_id := by
  have h := persistent_view_close_noop env0 dbOpen [7] 3 9 (by decide)
    (by decide)
  exact ⟨h.1, h.2 1 2⟩

theorem oneOpenPerUser_of_tickets_eq (db db' : Database)
    (h : db'.tickets = db.tickets) (hdb : oneOpenPerUser db) :
    oneOpenPerUser db' := by
  unfold oneOpenPerUser at hdb ⊢
  rw [h]
  exact hdb

theorem oneOpenPerUser_close_ticket (db : Database) (tid : String) (now : Nat)
    (h : oneOpenPerUser db) : oneOpenPerUser (db.close_ticket tid now) := by
  unfold oneOpenPerUser at h ⊢
  unfold Database.close_ticket
  dsimp only
  rw [List.pairwise_map]
  refine h.imp ?_
  intro a b hab hopen
  have ha := closeRow_eq_of_status_open tid now a hopen.2.1
  have hb := closeRow_eq_of_status_open tid now b hopen.2.2
  rw [ha, hb] at hopen
  exact hab hopen

theorem oneOpenPerUser_create_ticket (db : Database) (tid : String)
    (uid : Nat) (uname : String) (chan : Nat) (now : Nat)
    (hnone : db.get_user_open_ticket uid = none) (h : oneOpenPerUser db) :
    oneOpenPerUser (db.create_ticket tid uid uname chan "general" now).1 := by
  unfold Database.create_ticket
  split
  · exact h
  · unfold oneOpenPerUser at h ⊢
    dsimp only
    rw [List.pairwise_append]
    refine ⟨h, by simp, ?_⟩
    intro a ha b hb hopen
    rw [List.mem_singleton] at hb
    subst hb
    have hfind := List.find?_eq_none.mp hnone a ha
    apply hfind
    obtain ⟨hu, hsa, _⟩ := hopen
    simp at hu
    simp [hu, hsa]

theorem handle_dm_message_tickets (env : Env) (db : Database) (b : Bool)
    (uid : Nat) (uname content : String) (apiKey : Option String)
    (provider : String → Except Unit String) (now : Nat) :
    (handle_dm_message env db b uid uname content apiKey provider
      now).1.tickets = db.tickets := by
  unfold handle_dm_message
  split
  · rfl
  · split
    · split <;> rfl
    · dsimp only
      split <;> rfl

theorem handle_support_message_tickets (env : Env) (db : Database) (b : Bool)
    (author_id : Nat) (author_name : String) (cid : Nat)
    (cname content : String) (now : Nat) :
    (handle_support_message env db b author_id author_name cid cname content
      now).1.tickets = db.tickets := by
  unfold handle_support_message
  split
  · rfl
  · split
    · split
      · dsimp only
        split
        · split <;> rfl
        · rfl
      · rfl
    · rfl

theorem ticket_info_fst (env : Env) (db : Database) (roles : List Nat)
    (tid : String) : (ticket_info env db roles tid).1 = db := by
  unfold ticket_info
  split
  · split <;> rfl
  · rfl

theorem oneOpenPerUser_handle_ticket_creation (env : Env) (db : Database)
    (uid : Nat) (uname : String) (now : Nat) (h : oneOpenPerUser db) :
    oneOpenPerUser (handle_ticket_creation env db uid uname now).1 := by
  unfold handle_ticket_creation
  cases hgu : db.get_user_open_ticket uid with
  | some t => exact h
  | none =>
    dsimp only
    split
    · exact h
    split
    · exact h
    split
    · exact h
    split
    · exact h
    split <;>
      exact oneOpenPerUser_create_ticket db _ uid uname _ now hgu h

theorem oneOpenPerUser_step (env : Env) (apiKey : Option String)
    (provider : String → Except Unit String) (db : Database) (a : Action)
    (h : oneOpenPerUser db) :
    oneOpenPerUser (step env apiKey provider db a) := by
  cases a with
  | create uid uname now =>
    exact oneOpenPerUser_handle_ticket_creation env db uid uname now h
  | closeBtn roles closer vtid now =>
    show oneOpenPerUser (close_ticket_button env db roles closer vtid now).1
    by_cases hstaff : env.STAFF_ROLE_ID ∈ roles
    · rw [close_ticket_button_fst env db roles closer vtid now hstaff]
      exact oneOpenPerUser_close_ticket db vtid now h
    · unfold close_ticket_button
      rw [if_neg hstaff]
      exact h
  | closeCmd roles closer tid now =>
    show oneOpenPerUser (close_ticket_command env db roles closer tid now).1
    unfold close_ticket_command
    dsimp only
    split
    · split
      · exact h
      · split
        · exact h
        · split <;> exact oneOpenPerUser_close_ticket db tid now h
    · exact h
  | info roles tid =>
    exact oneOpenPerUser_of_tickets_eq db _
      (by rw [show (step env apiKey provider db (Action.info roles tid)) =
        (ticket_info env db roles tid).1 from rfl, ticket_info_fst]) h
  | dm b uid uname content now =>
    exact oneOpenPerUser_of_tickets_eq db _
      (handle_dm_message_tickets env db b uid uname content apiKey provider
        now) h
  | support b aid aname cid cname content now =>
    exact oneOpenPerUser_of_tickets_eq db _
      (handle_support_message_tickets env db b aid aname cid cname content
        now) h

theorem oneOpenPerUser_run (env : Env) (apiKey : Option String)
    (provider : String → Except Unit String) (db : Database)
    (acts : List Action) (h : oneOpenPerUser db) :
    oneOpenPerUser (run env apiKey provider db acts) := by
  induction acts generalizing db with
  | nil => exact h
  | cons a rest ih =>
    exact ih _ (oneOpenPerUser_step env apiKey provider db a h)

theorem handle_ticket_creation_already_open (env : Env) (db : Database)
    (uid : Nat) (uname : String) (now : Nat) (t : Ticket)
    (ht : db.get_user_open_ticket uid = some t) :
    handle_ticket_creation env db uid uname now =
      (db, [Effect.ephemeralReply
        ("You already have an open ticket: " ++ t.ticket_id)]) := by
  unfold handle_ticket_creation
  rw [ht]

theorem handle_ticket_creation_success (env : Env) (db : Database)
    (uid : Nat) (uname : String) (now : Nat) (chan : Nat)
    (hsg : env.supportGuildExists = true) (hcat : env.categoryExists = true)
    (hrole : env.staffRoleExists = true)
    (hcc : env.channelCreation = some chan)
    (hgu : db.get_user_open_ticket uid = none)
    (hfresh : ∀ t ∈ db.tickets, t.ticket_id ≠ generate_ticket_id uid now) :
    (handle_ticket_creation env db uid uname now).1 =
      { db with tickets := db.tickets ++ [newTicket uid uname now chan] } := by
  have hany : db.tickets.any
      (fun t => t.ticket_id == generate_ticket_id uid now) = false := by
    rw [List.any_eq_false]
    intro t ht
    simp [hfresh t ht]
  unfold handle_ticket_creation
  rw [hgu]
  simp only [hsg, hcat, hrole, hcc, Bool.not_true, Bool.false_eq_true,
    if_false]
  unfold Database.create_ticket
  rw [hany]
  split <;> rfl

/-- Claim C2: (a) a creation request from a user who already has an open
ticket creates nothing and reports the existing ticket id; (b) the at-most-
one-open-ticket-per-user invariant is preserved by every inbound event of a
sequential execution, hence holds at all times from an initial store
satisfying it; (c) two consecutive creation calls for a user with no prior
ticket, in a healthy environment and with a fresh generated id (the spec
accepts same-second id collisions as an edge case), insert exactly one open
ticket and answer the second call with the already-open signal naming it. -/
theorem one_open_ticket_per_user (env : Env) (apiKey : Option String)
    (provider : String → Except Unit String) (db : Database) (uid : Nat)
    (uname : String) (now1 now2 : Nat) :
    (∀ t, db.get_user_open_ticket uid = some t →
      handle_ticket_creation env db uid uname now1 =
        (db, [Effect.ephemeralReply
          ("You already have an open ticket: " ++ t.ticket_id)])) ∧
    (oneOpenPerUser db → ∀ acts : List Action,
      oneOpenPerUser (run env apiKey provider db acts)) ∧
    (env.supportGuildExists = true → env.categoryExists = true →
      env.staffRoleExists = true → ∀ chan, env.channelCreation = some chan →
      (∀ t ∈ db.tickets, t.user_id ≠ uid) →
      (∀ t ∈ db.tickets, t.ticket_id ≠ generate_ticket_id uid now1) →
      (handle_ticket_creation env db uid uname now1).1.tickets =
        db.tickets ++ [newTicket uid uname now1 chan] ∧
      handle_ticket_creation env
          (handle_ticket_creation env db uid uname now1).1 uid uname now2 =
        ((handle_ticket_creation env db uid uname now1).1,
         [Effect.ephemeralReply ("You already have an open ticket: " ++
           generate_ticket_id uid now1)])) := by
  refine ⟨?_, ?_, ?_⟩
  · intro t ht
    exact handle_ticket_creation_already_open env db uid uname now1 t ht
  · intro hdb acts
    exact oneOpenPerUser_run env apiKey provider db acts hdb
  · intro hsg hcat hrole chan hcc hnouser hfresh
    have hgu : db.get_user_open_ticket uid = none := by
      apply List.find?_eq_none.mpr
      intro t ht
      simp [hnouser t ht]
    have hsucc := handle_ticket_creation_success env db uid uname now1 chan
      hsg hcat hrole hcc hgu hfresh
    constructor
    · rw [hsucc]
    · have hfound : ((handle_ticket_creation env db uid uname
          now1).1).get_user_open_ticket uid =
          some (newTicket uid uname now1 chan) := by
        rw [hsucc]
        unfold Database.get_user_open_ticket
        dsimp only
        rw [List.find?_append]
        have h1 : db.tickets.find?
            (fun t => t.user_id == uid && t.status == "open") = none := by
          apply List.find?_eq_none.mpr
          intro t ht
          simp [hnouser t ht]
        rw [h1]
        simp [newTicket]
      rw [handle_ticket_creation_already_open env _ uid uname now2 _ hfound]
      rfl

/-- Witness for C2: creating then creating again for user 1 against the
empty store inserts exactly one open ticket and signals already-open the
second time; the invariant holds after that two-event execution. -/
theorem one_open_ticket_per_user_witness :
    (handle_ticket_creation env0 db0 1 "alice" 2).1.tickets =
      [{ ticket_id := "ticket-1-2", user_id := 1, username := "alice",
         status := "open", created_at := 2, closed_at := none,
         support_channel_id := 50, category := "general" }] ∧
    handle_ticket_creation env0
        (handle_ticket_creation env0 db0 1 "alice" 2).1 1 "alice" 5 =
      ((handle_ticket_creation env0 db0 1 "alice" 2).1,
       [Effect.ephemeralReply
         "You already have an open ticket: ticket-1-2"]) ∧
    oneOpenPerUser (run env0 none (fun _ => Except.error ()) db0
      [Action.create 1 "alice" 2, Action.create 1 "alice" 5]) := by
  obtain ⟨h1, h2, h3⟩ := one_open_ticket_per_user env0 none
    (fun _ => Except.error ()) db0 1 "alice" 2 5
  have hc := h3 rfl rfl rfl 50 rfl (by decide) (by decide)
  refine ⟨?_, ?_, ?_⟩
  · rw [hc.1]
    decide
  · rw [hc.2]
    decide
  · exact h2 (by decide) [Action.create 1 "alice" 2, Action.create 1 "alice" 5]

end TicketBot
